import Mathlib

/-!
# Verification of the database connection lifecycle manager

Shallow embedding of the connection supervisor, retry executor, lazy access
facade and audit-log sink of the backend (`src/backend/src/app.ts` and the
logger module), together with theorems checking the specification's claims.

Modelling conventions:
- JavaScript strings are Lean `String`; `s.includes(pat)` is `strIncludes s pat`.
- An async operation that can throw is a function into `Except String _`,
  the error being the thrown error's message.
- `Date.now()` values are `Nat` arguments supplied by the environment.
- Module-level mutable state becomes explicit state records threaded through
  the functions that read and write it.
-/

/-- Character-list prefix test: does the first list occur at the head of the
second one?  Used to embed JavaScript's `String.prototype.includes`. -/
def listPrefixEq : List Char → List Char → Bool
  | [], _ => true
  | _ :: _, [] => false
  | a :: as, b :: bs => a == b && listPrefixEq as bs

/-- Does the first character list occur contiguously anywhere in the second? -/
def listContains : List Char → List Char → Bool
  | pat, [] => listPrefixEq pat []
  | pat, c :: rest => listPrefixEq pat (c :: rest) || listContains pat rest

/-- Embedding of JavaScript `s.includes(pat)`. -/
def strIncludes (s pat : String) : Bool :=
  listContains pat.toList s.toList

/-- The audit-log sink's error classifier (`isConnectionError` in the logger
module): a message is a connection error when it contains one of seven fixed
substring markers. -/
def isConnectionError (message : String) : Bool :=
  strIncludes message "Server has closed the connection" ||
  strIncludes message "terminating connection" ||
  strIncludes message "Connection refused" ||
  strIncludes message "57P01" ||
  strIncludes message "Connection pool timeout" ||
  strIncludes message "kind: Closed" ||
  strIncludes message "ConnectorError"

/-- The retry executor's inline error classifier (the `isConnectionError`
constant computed inside `withRetry` in `app.ts`): six fixed substring
markers, without the `ConnectorError` marker. -/
def withRetryIsConnectionError (message : String) : Bool :=
  strIncludes message "Server has closed the connection" ||
  strIncludes message "terminating connection" ||
  strIncludes message "Connection refused" ||
  strIncludes message "57P01" ||
  strIncludes message "Connection pool timeout" ||
  strIncludes message "kind: Closed"

/-- One observable event of the retry executor: running an attempt,
triggering the supervisor's reconnect, or sleeping for a delay. -/
inductive RetryEvent where
  | attempt (k : Nat)
  | reconnect
  | sleep (ms : Nat)
deriving DecidableEq

/-- The `for` loop of `withRetry` in `app.ts`, entered at iteration `attempt`.
`op k` is the outcome of the `try` block of attempt `k` (acquiring the client
and running the operation): `Except.ok` on success, `Except.error` with the
thrown message otherwise.  The result pairs the list of observable events with
the final outcome.  On a connection-classified failure before the last
attempt the loop calls `reconnectPrisma` (its own errors swallowed), sleeps
`retryDelay * attempt` and continues; any other failure is rethrown at once.
If the loop never runs (`maxRetries < attempt`) the trailing
`throw lastError || new Error(...)` fires with `lastError` still null. -/
def withRetryFrom (op : Nat → Except String α) (maxRetries retryDelay attempt : Nat) :
    List RetryEvent × Except String α :=
  if attempt ≤ maxRetries then
    match op attempt with
    | Except.ok v => ([RetryEvent.attempt attempt], Except.ok v)
    | Except.error e =>
      if _hca : withRetryIsConnectionError e = true ∧ attempt < maxRetries then
        let rest := withRetryFrom op maxRetries retryDelay (attempt + 1)
        (RetryEvent.attempt attempt :: RetryEvent.reconnect ::
          RetryEvent.sleep (retryDelay * attempt) :: rest.1, rest.2)
      else
        ([RetryEvent.attempt attempt], Except.error e)
  else
    ([], Except.error "Operation failed after retries")
termination_by maxRetries + 1 - attempt
decreasing_by omega

/-- `withRetry(operation, maxRetries, retryDelay)` from `app.ts`: the retry
loop started at attempt 1. -/
def withRetry (op : Nat → Except String α) (maxRetries retryDelay : Nat) :
    List RetryEvent × Except String α :=
  withRetryFrom op maxRetries retryDelay 1

/-- The event trace of `r + 1` consecutive attempts that all fail with
connection errors, starting at attempt number `k`: each non-final attempt is
followed by a reconnect and a sleep of `d * k`, the final attempt ends the
trace. -/
def allFailTraceAux (d k : Nat) : Nat → List RetryEvent
  | 0 => [RetryEvent.attempt k]
  | r + 1 => RetryEvent.attempt k :: RetryEvent.reconnect ::
      RetryEvent.sleep (d * k) :: allFailTraceAux d (k + 1) r

/-- The events contributed by `r` consecutive connection-error attempts
starting at attempt number `k`, each followed by a reconnect and a sleep. -/
def connFailEvents (d k : Nat) : Nat → List RetryEvent
  | 0 => []
  | r + 1 => RetryEvent.attempt k :: RetryEvent.reconnect ::
      RetryEvent.sleep (d * k) :: connFailEvents d (k + 1) r

/-- Module-level state of the connection supervisor in `app.ts`:
`prismaInstance` is the cached live client (by identifier), `initPromise` the
in-flight initialization promise (by identifier), `rejected` records which
promises have rejected (environment knowledge used to observe failures), and
`nextId` supplies fresh identifiers for newly created promises. -/
structure SupervisorState where
  prismaInstance : Option Nat
  initPromise : Option Nat
  rejected : List Nat
  nextId : Nat
deriving DecidableEq

/-- What a call to `initializePrisma` hands back to its caller: either the
already-live client directly, or a reference to an initialization promise. -/
inductive AcquireResult where
  | readyClient (c : Nat)
  | promiseRef (p : Nat)
deriving DecidableEq

/-- `initializePrisma` from `app.ts`.  Returns the updated state, the result
handed to the caller, and whether a new initialization attempt (hence a new
underlying client construction) was started by this call.  If a live client
is cached it is returned at once; if an initialization promise is in flight
the same promise is returned; otherwise a fresh promise is created, cached in
`initPromise` and returned.  Note that nothing here (or anywhere else in the
module except `reconnectPrisma`) ever clears `initPromise` when the in-flight
attempt rejects. -/
def initializePrisma (s : SupervisorState) : SupervisorState × AcquireResult × Bool :=
  match s.prismaInstance with
  | some c => (s, AcquireResult.readyClient c, false)
  | none =>
    match s.initPromise with
    | some p => (s, AcquireResult.promiseRef p, false)
    | none =>
      let p := s.nextId
      ({ s with initPromise := some p, nextId := s.nextId + 1 },
        AcquireResult.promiseRef p, true)

/-- `getPrismaClientAsync` from `app.ts`: simply returns `initializePrisma()`. -/
def getPrismaClientAsync (s : SupervisorState) : SupervisorState × AcquireResult × Bool :=
  initializePrisma s

/-- Environment event: the in-flight initialization promise `p` rejects.  No
code in the module reacts to this rejection (there is no `catch` that resets
`initPromise` or `prismaInstance`), so the supervisor state is unchanged
except that promise `p` is now known to be rejected. -/
def initFails (s : SupervisorState) (p : Nat) : SupervisorState :=
  { s with rejected := p :: s.rejected }

/-- Environment event: the in-flight initialization body finishes and caches
the constructed client (`prismaInstance = client` at the end of the IIFE). -/
def initCompletes (s : SupervisorState) (c : Nat) : SupervisorState :=
  { s with prismaInstance := some c }

/-- `n` successive calls to `initializePrisma` with no intervening completion
or failure events; returns the final state and, in call order, each call's
result and whether it started a new initialization attempt. -/
def acquireSeq (s : SupervisorState) : Nat → SupervisorState × List (AcquireResult × Bool)
  | 0 => (s, [])
  | n + 1 =>
    let step := initializePrisma s
    let rest := acquireSeq step.1 n
    (rest.1, (step.2.1, step.2.2) :: rest.2)

/-- Module-level breaker state of the audit-log sink (logger module):
the enablement flag, the consecutive connection-error failure counter, the
paused flag and the pause deadline. -/
structure SinkState where
  dbLoggingEnabled : Bool
  dbLoggingRetryCount : Nat
  dbLoggingPaused : Bool
  dbLoggingPauseUntil : Nat
deriving DecidableEq

/-- `MAX_DB_LOGGING_RETRIES` from the logger module. -/
def MAX_DB_LOGGING_RETRIES : Nat := 3

/-- `DB_LOGGING_PAUSE_DURATION` from the logger module (30 seconds). -/
def DB_LOGGING_PAUSE_DURATION : Nat := 30000

/-- The module-level initial values of the sink's breaker state. -/
def initialSinkState : SinkState :=
  { dbLoggingEnabled := false, dbLoggingRetryCount := 0,
    dbLoggingPaused := false, dbLoggingPauseUntil := 0 }

/-- `enableDatabaseLogging` from the logger module. -/
def enableDatabaseLogging (s : SinkState) : SinkState :=
  { s with dbLoggingEnabled := true, dbLoggingRetryCount := 0, dbLoggingPaused := false }

/-- Whether the synchronous part of `logToDatabase` returned without doing
anything or scheduled the deferred persistence via `setImmediate`. -/
inductive SyncAction where
  | noop
  | scheduled
deriving DecidableEq

/-- The synchronous part of `logToDatabase` (everything before the
`setImmediate` call), evaluated at time `now`: return if disabled; return if
paused and the deadline has not passed; otherwise clear a lapsed pause and
reset the counter; return (engaging a fresh pause) if the counter has already
reached the threshold; otherwise schedule the deferred persistence. -/
def logToDatabaseSync (s : SinkState) (now : Nat) : SinkState × SyncAction :=
  if !s.dbLoggingEnabled then (s, SyncAction.noop)
  else if s.dbLoggingPaused && decide (now < s.dbLoggingPauseUntil) then (s, SyncAction.noop)
  else
    let s1 := if s.dbLoggingPaused then
        { s with dbLoggingPaused := false, dbLoggingRetryCount := 0 } else s
    if MAX_DB_LOGGING_RETRIES ≤ s1.dbLoggingRetryCount then
      ({ s1 with dbLoggingPaused := true, dbLoggingPauseUntil := now + DB_LOGGING_PAUSE_DURATION },
        SyncAction.noop)
    else (s1, SyncAction.scheduled)

/-- The `try` block of the deferred (`setImmediate`) body of `logToDatabase`:
optionally look the user id up (`findUser` models `prisma.user.findUnique`,
its `Except.error` a thrown lookup error), then persist through the retry
executor (`persist` models the `withRetry(... , 2, 500)` call), and on
success reset the consecutive-failure counter to zero.  `Except.error`
means the block threw with that message. -/
def deferredTryBlock (s : SinkState) (userId : Option Nat)
    (findUser : Nat → Except String (Option Nat))
    (persist : Option Nat → Except String Unit) : Except String SinkState := do
  let validUserId ←
    match userId with
    | none => pure none
    | some uid => findUser uid
  let _ ← persist validUserId
  pure { s with dbLoggingRetryCount := 0 }

/-- The `catch (dbError)` handler of the deferred body: a connection-classified
failure increments the counter and, on reaching the threshold, engages the
30-second pause from the current time; any other failure leaves the state
untouched. -/
def catchHandler (s : SinkState) (msg : String) (now : Nat) : SinkState :=
  if isConnectionError msg then
    let s1 := { s with dbLoggingRetryCount := s.dbLoggingRetryCount + 1 }
    if MAX_DB_LOGGING_RETRIES ≤ s1.dbLoggingRetryCount then
      { s1 with dbLoggingPaused := true, dbLoggingPauseUntil := now + DB_LOGGING_PAUSE_DURATION }
    else s1
  else s

/-- The deferred body with its try/catch: the state after the scheduled
persistence work has run (at time `nowD`). -/
def deferredRun (s : SinkState) (userId : Option Nat)
    (findUser : Nat → Except String (Option Nat))
    (persist : Option Nat → Except String Unit) (nowD : Nat) : SinkState :=
  match deferredTryBlock s userId findUser persist with
  | Except.ok s1 => s1
  | Except.error msg => catchHandler s msg nowD

/-- `logToDatabase` from the logger module, as observed by its caller and by
the event loop: the synchronous part runs at time `now`; when it schedules
the deferred body, that body runs at time `nowD`.  The result is the final
breaker state and the caller-visible action, wrapped in `Except` whose
`Except.error` would be an exception escaping to the caller or the event
loop — which the try/catch structure never produces. -/
def logToDatabase (s : SinkState) (userId : Option Nat)
    (findUser : Nat → Except String (Option Nat))
    (persist : Option Nat → Except String Unit) (now nowD : Nat) :
    Except String (SinkState × SyncAction) :=
  match logToDatabaseSync s now with
  | (s1, SyncAction.noop) => Except.ok (s1, SyncAction.noop)
  | (s1, SyncAction.scheduled) =>
      Except.ok (deferredRun s1 userId findUser persist nowD, SyncAction.scheduled)

/-- Outcome of reading one property on the lazy facade created by
`createLazyProxy` in `app.ts`: a boolean value (for the introspection
member), `undefined`, a thrown error, or a forwarded read on the live
client. -/
inductive GetOutcome where
  | boolVal (b : Bool)
  | undef
  | thrown (msg : String)
  | forwarded (prop : String)
deriving DecidableEq

/-- The error message thrown by the proxy for property `prop` before the
client is ready. -/
def notInitializedMessage (prop : String) : String :=
  "Prisma not initialized. Accessing '" ++ prop ++
    "' before database is ready. Use getPrismaClientAsync() for async operations."

/-- The `get` trap of the proxy returned by `createLazyProxy` in `app.ts`,
reading property `prop` while the cached client is `prismaInstance`:
`_initialized` reports whether a client is cached; `then`, `catch` and
`finally` read as `undefined`; any other property throws the
not-initialized error when no client is cached and is forwarded to the
client otherwise. -/
def lazyProxyGet (prismaInstance : Option Nat) (prop : String) : GetOutcome :=
  if prop == "_initialized" then GetOutcome.boolVal prismaInstance.isSome
  else if prop == "then" || prop == "catch" || prop == "finally" then GetOutcome.undef
  else
    match prismaInstance with
    | none => GetOutcome.thrown (notInitializedMessage prop)
    | some _ => GetOutcome.forwarded prop

/-- C8 counterexample: the message "ConnectorError" is classified as a
connection error by the audit-log sink but not by the retry executor, so the
two classifiers are not equivalent. -/
theorem classifiers_differ_on_ConnectorError :
    isConnectionError "ConnectorError" = true ∧
    withRetryIsConnectionError "ConnectorError" = false := by
  constructor <;> decide

/-- C8 (amended): the sink's classifier extends the retry executor's by the
single extra marker `ConnectorError`; every retry-executor connection error is
also a sink connection error, but not conversely. -/
theorem isConnectionError_extends_withRetry (message : String) :
    isConnectionError message =
      (withRetryIsConnectionError message || strIncludes message "ConnectorError") :=
  rfl

/-- Helper: if every attempt from `a` through `N` fails with a
connection-classified error, the loop entered at `a` produces the full
fail-reconnect-sleep trace and ends with attempt `N`'s outcome. -/
theorem withRetryFrom_allFail {α : Type} (op : Nat → Except String α) (N d : Nat)
    (hfc : ∀ k, 1 ≤ k → k ≤ N → ∃ e, op k = Except.error e ∧ withRetryIsConnectionError e = true) :
    ∀ r a, 1 ≤ a → a ≤ N → N - a = r →
      withRetryFrom op N d a = (allFailTraceAux d a r, op N) := by
  intro r
  induction r with
  | zero =>
    intro a h1 h2 h3
    have haN : a = N := by omega
    subst haN
    obtain ⟨e, he, _⟩ := hfc a h1 h2
    rw [withRetryFrom]
    simp only [he, h2, if_true]
    have hcond : ¬ (withRetryIsConnectionError e = true ∧ a < a) := by
      intro hc; exact absurd hc.2 (lt_irrefl a)
    simp [hcond, allFailTraceAux, he]
  | succ r ih =>
    intro a h1 h2 h3
    have haN : a < N := by omega
    obtain ⟨e, he, hce⟩ := hfc a h1 (le_of_lt haN)
    have hrec := ih (a + 1) (by omega) (by omega) (by omega)
    rw [withRetryFrom]
    simp only [he, h2, if_true]
    have hcond : withRetryIsConnectionError e = true ∧ a < N := ⟨hce, haN⟩
    simp [hcond, hrec, allFailTraceAux]

/-- C1: if every attempt of `op` fails with a connection-classified error,
`withRetry op N d` (for `N ≥ 1`) runs exactly attempts `1..N`, calls
reconnect and then sleeps `d * k` between attempt `k` and attempt `k + 1`,
and finally rejects with the error of the `N`-th attempt. -/
theorem withRetry_all_connection_failures {α : Type} (op : Nat → Except String α)
    (N d : Nat) (hN : 1 ≤ N)
    (hfc : ∀ k, 1 ≤ k → k ≤ N → ∃ e, op k = Except.error e ∧ withRetryIsConnectionError e = true) :
    withRetry op N d = (allFailTraceAux d 1 (N - 1), op N) :=
  withRetryFrom_allFail op N d hfc (N - 1) 1 le_rfl hN (by omega)

/-- C1 witness: with an operation that always throws "Connection refused",
`withRetry` with 3 attempts and base delay 7 produces the full three-attempt
trace and rejects with that error. -/
theorem withRetry_all_connection_failures_witness :
    withRetry (fun _ => (Except.error "Connection refused" : Except String Nat)) 3 7 =
      (allFailTraceAux 7 1 2, Except.error "Connection refused") :=
  withRetry_all_connection_failures (fun _ => Except.error "Connection refused") 3 7
    (by decide) (fun k _ _ => ⟨"Connection refused", rfl, by decide⟩)

/-- Helper: with connection-error failures on attempts `k..a-1` and a
non-connection failure on attempt `a ≤ N`, the loop entered at `k` stops at
attempt `a` with no reconnect or sleep after it. -/
theorem withRetryFrom_nonconn {α : Type} (op : Nat → Except String α) (N d a : Nat)
    (e : String) (h2 : a ≤ N)
    (hpre : ∀ j, 1 ≤ j → j < a → ∃ e', op j = Except.error e' ∧ withRetryIsConnectionError e' = true)
    (ha : op a = Except.error e) (hnc : withRetryIsConnectionError e = false) :
    ∀ r k, 1 ≤ k → k ≤ a → a - k = r →
      withRetryFrom op N d k = (connFailEvents d k r ++ [RetryEvent.attempt a], Except.error e) := by
  intro r
  induction r with
  | zero =>
    intro k h1 hk h3
    have hka : k = a := by omega
    subst hka
    rw [withRetryFrom]
    simp only [ha, h2, if_true]
    have hcond : ¬ (withRetryIsConnectionError e = true ∧ k < N) := by
      intro hc; rw [hnc] at hc; exact Bool.false_ne_true hc.1
    simp [hcond, connFailEvents]
  | succ r ih =>
    intro k h1 hk h3
    have hka : k < a := by omega
    obtain ⟨e', he', hce'⟩ := hpre k h1 hka
    have hrec := ih (k + 1) (by omega) (by omega) (by omega)
    rw [withRetryFrom]
    have hkN : k ≤ N := by omega
    simp only [he', hkN, if_true]
    have hcond : withRetryIsConnectionError e' = true ∧ k < N := ⟨hce', by omega⟩
    simp [hcond, hrec, connFailEvents]

/-- C5: if attempt `a` of `op` fails with a non-connection-classified error
(after connection-error failures, if any, on the earlier attempts),
`withRetry` rejects immediately with that error: attempt `a` is the last
attempt made and no reconnect or sleep follows it; in particular with `a = 1`
exactly one attempt occurs. -/
theorem withRetry_nonconnection_error {α : Type} (op : Nat → Except String α)
    (N d a : Nat) (e : String) (h1 : 1 ≤ a) (h2 : a ≤ N)
    (hpre : ∀ j, 1 ≤ j → j < a → ∃ e', op j = Except.error e' ∧ withRetryIsConnectionError e' = true)
    (ha : op a = Except.error e) (hnc : withRetryIsConnectionError e = false) :
    withRetry op N d = (connFailEvents d 1 (a - 1) ++ [RetryEvent.attempt a], Except.error e) :=
  withRetryFrom_nonconn op N d a e h2 hpre ha hnc (a - 1) 1 le_rfl h1 (by omega)

/-- C5 witness: a non-connection error ("unique constraint violation") on
attempt 1 with 3 allowed attempts yields exactly one attempt event, no
reconnect, no sleep, and immediate rejection with that error. -/
theorem withRetry_nonconnection_error_witness :
    withRetry (fun _ => (Except.error "unique constraint violation" : Except String Nat)) 3 1000 =
      ([RetryEvent.attempt 1], Except.error "unique constraint violation") :=
  withRetry_nonconnection_error (fun _ => Except.error "unique constraint violation") 3 1000 1
    "unique constraint violation" le_rfl (by decide)
    (fun j hj hjlt => absurd hjlt (by omega)) rfl (by decide)

/-- C2 counterexample: starting from the pristine state, one acquire starts
an initialization; when that in-flight attempt rejects, the state does NOT
return to Uninitialized — `initPromise` still caches the rejected promise 0 —
and the next acquire returns that same rejected promise without starting a
fresh attempt. -/
theorem failed_init_not_reset_counterexample :
    initFails (initializePrisma ⟨none, none, [], 0⟩).1 0 =
      ⟨none, some 0, [0], 1⟩ ∧
    initializePrisma ⟨none, some 0, [0], 1⟩ =
      (⟨none, some 0, [0], 1⟩, AcquireResult.promiseRef 0, false) :=
  ⟨rfl, rfl⟩

/-- C2 (amended): when the in-flight initialization attempt rejects, the
supervisor retains it — `prismaInstance` stays empty, `initPromise` still
holds the rejected promise, and the next acquire call returns that same
rejected promise without starting a fresh initialization attempt. -/
theorem initFails_state_retained (s : SupervisorState) (p : Nat)
    (h1 : s.prismaInstance = none) (h2 : s.initPromise = some p) :
    (initFails s p).prismaInstance = none ∧
    (initFails s p).initPromise = some p ∧
    p ∈ (initFails s p).rejected ∧
    initializePrisma (initFails s p) =
      (initFails s p, AcquireResult.promiseRef p, false) := by
  refine ⟨h1, h2, List.mem_cons_self p s.rejected, ?_⟩
  simp [initFails, initializePrisma, h1, h2]

/-- C2 amended-claim witness at a concrete state with promise 4 in flight. -/
theorem initFails_state_retained_witness :
    (initFails ⟨none, some 4, [], 5⟩ 4).prismaInstance = none ∧
    (initFails ⟨none, some 4, [], 5⟩ 4).initPromise = some 4 ∧
    4 ∈ (initFails ⟨none, some 4, [], 5⟩ 4).rejected ∧
    initializePrisma (initFails ⟨none, some 4, [], 5⟩ 4) =
      (initFails ⟨none, some 4, [], 5⟩ 4, AcquireResult.promiseRef 4, false) :=
  initFails_state_retained ⟨none, some 4, [], 5⟩ 4 rfl rfl

/-- Helper: while an initialization promise `p` is in flight and no client is
cached, any number of acquire calls leave the state unchanged and all return
the same promise `p`, starting no new attempt. -/
theorem acquireSeq_inflight : ∀ (n : Nat) (s : SupervisorState) (p : Nat),
    s.prismaInstance = none → s.initPromise = some p →
    acquireSeq s n = (s, List.replicate n (AcquireResult.promiseRef p, false)) := by
  intro n
  induction n with
  | zero => intro s p h1 h2; simp [acquireSeq]
  | succ n ih =>
    intro s p h1 h2
    have hstep : initializePrisma s = (s, AcquireResult.promiseRef p, false) := by
      simp [initializePrisma, h1, h2]
    simp [acquireSeq, hstep, ih s p h1 h2, List.replicate]

/-- C9: acquire is idempotent and request-coalesced.  First, if a live client
`c` is cached, `getPrismaClientAsync` returns it immediately, unchanged state,
no new construction.  Second, for `n + 1` acquire calls issued from the
pristine state before initialization completes, only the first call starts an
initialization attempt (constructing one underlying client) and every call
resolves to the same promise. -/
theorem acquire_idempotent_and_coalesced :
    (∀ (s : SupervisorState) (c : Nat), s.prismaInstance = some c →
      getPrismaClientAsync s = (s, AcquireResult.readyClient c, false)) ∧
    (∀ (i n : Nat),
      (acquireSeq { prismaInstance := none, initPromise := none,
                    rejected := [], nextId := i } (n + 1)).2 =
        (AcquireResult.promiseRef i, true) ::
          List.replicate n (AcquireResult.promiseRef i, false)) := by
  constructor
  · intro s c h
    simp [getPrismaClientAsync, initializePrisma, h]
  · intro i n
    have hstep : initializePrisma ⟨none, none, [], i⟩ =
        (⟨none, some i, [], i + 1⟩, AcquireResult.promiseRef i, true) := rfl
    have hrest := acquireSeq_inflight n ⟨none, some i, [], i + 1⟩ i rfl rfl
    simp [acquireSeq, hstep, hrest]

/-- C9 witness: a cached client 5 is returned as is, and three acquire calls
from the pristine state yield one construction and three references to the
same promise 0. -/
theorem acquire_idempotent_and_coalesced_witness :
    getPrismaClientAsync ⟨some 5, none, [], 9⟩ =
      (⟨some 5, none, [], 9⟩, AcquireResult.readyClient 5, false) ∧
    (acquireSeq ⟨none, none, [], 0⟩ 3).2 =
      (AcquireResult.promiseRef 0, true) ::
        List.replicate 2 (AcquireResult.promiseRef 0, false) :=
  ⟨acquire_idempotent_and_coalesced.1 ⟨some 5, none, [], 9⟩ 5 rfl,
   acquire_idempotent_and_coalesced.2 0 2⟩

/-- C10: database logging never enabled means `logToDatabase` is a no-op.
The module-level flag starts out false, and whenever it is false
`logToDatabase` returns immediately with the entire breaker state unchanged
and no persistence work scheduled, regardless of the log event, datastore
behavior or the clock. -/
theorem recordLog_noop_when_disabled :
    initialSinkState.dbLoggingEnabled = false ∧
    ∀ (s : SinkState) (userId : Option Nat)
      (findUser : Nat → Except String (Option Nat))
      (persist : Option Nat → Except String Unit) (now nowD : Nat),
      s.dbLoggingEnabled = false →
      logToDatabase s userId findUser persist now nowD = Except.ok (s, SyncAction.noop) := by
  refine ⟨rfl, ?_⟩
  intro s userId findUser persist now nowD h
  unfold logToDatabase logToDatabaseSync
  simp [h]

/-- C10 witness: from the initial state, with a healthy datastore and a user
id attached, `logToDatabase` is still a no-op. -/
theorem recordLog_noop_when_disabled_witness :
    logToDatabase initialSinkState (some 7) (fun _ => Except.ok (some 7))
      (fun _ => Except.ok ()) 0 1 = Except.ok (initialSinkState, SyncAction.noop) :=
  recordLog_noop_when_disabled.2 initialSinkState (some 7) (fun _ => Except.ok (some 7))
    (fun _ => Except.ok ()) 0 1 rfl

/-- C4: `logToDatabase` never throws to its caller: for every breaker state,
log event and datastore behavior the call yields a result rather than an
escaping exception, and every error the deferred work raises (user lookup or
retry-wrapped persistence alike) is routed into the sink's catch handler and
absorbed there. -/
theorem logToDatabase_never_throws (s : SinkState) (userId : Option Nat)
    (findUser : Nat → Except String (Option Nat))
    (persist : Option Nat → Except String Unit) (now nowD : Nat) :
    (logToDatabase s userId findUser persist now nowD).isOk = true ∧
    (∀ msg, deferredTryBlock s userId findUser persist = Except.error msg →
      deferredRun s userId findUser persist nowD = catchHandler s msg nowD) := by
  constructor
  · unfold logToDatabase
    split
    · rfl
    · rfl
  · intro msg h
    unfold deferredRun
    rw [h]

/-- C4 witness: with logging enabled, a failing user lookup and a failing
persistence call, the call still returns a result and the deferred error is
absorbed by the catch handler. -/
theorem logToDatabase_never_throws_witness :
    (logToDatabase (enableDatabaseLogging initialSinkState) none
      (fun _ => Except.error "lookup failed")
      (fun _ => Except.error "Connection refused") 0 1).isOk = true ∧
    deferredRun (enableDatabaseLogging initialSinkState) none
      (fun _ => Except.error "lookup failed")
      (fun _ => Except.error "Connection refused") 1 =
      catchHandler (enableDatabaseLogging initialSinkState) "Connection refused" 1 :=
  ⟨(logToDatabase_never_throws (enableDatabaseLogging initialSinkState) none
      (fun _ => Except.error "lookup failed")
      (fun _ => Except.error "Connection refused") 0 1).1,
   (logToDatabase_never_throws (enableDatabaseLogging initialSinkState) none
      (fun _ => Except.error "lookup failed")
      (fun _ => Except.error "Connection refused") 0 1).2 "Connection refused" rfl⟩

/-- C6: a deferred persistence failure whose error is not classified as a
connection error leaves the breaker state exactly as it was: the counter is
not incremented, the paused flag stays as it was and the pause deadline is
unchanged. -/
theorem nonconnection_failure_preserves_breaker (s : SinkState) (userId : Option Nat)
    (findUser : Nat → Except String (Option Nat))
    (persist : Option Nat → Except String Unit) (msg : String) (nowD : Nat)
    (herr : deferredTryBlock s userId findUser persist = Except.error msg)
    (hnc : isConnectionError msg = false) :
    deferredRun s userId findUser persist nowD = s := by
  unfold deferredRun
  rw [herr]
  unfold catchHandler
  simp [hnc]

/-- C6 witness: a "permission denied" persistence failure leaves the breaker
state (counter 1, not paused) untouched. -/
theorem nonconnection_failure_preserves_breaker_witness :
    deferredRun ⟨true, 1, false, 0⟩ none (fun _ => Except.ok none)
      (fun _ => Except.error "permission denied") 5 = ⟨true, 1, false, 0⟩ :=
  nonconnection_failure_preserves_breaker ⟨true, 1, false, 0⟩ none (fun _ => Except.ok none)
    (fun _ => Except.error "permission denied") "permission denied" 5 rfl (by decide)

/-- C3: the sink's circuit breaker.  First, when a connection-classified
failure makes the consecutive-failure counter reach the threshold 3, the
pause is engaged immediately with a deadline exactly 30000 ms from the
current time.  Second, while paused and before the deadline every call is a
no-op that changes nothing and schedules nothing.  Third, the first call at
or after the deadline clears the paused flag, resets the counter to 0 and
proceeds to attempt persistence again. -/
theorem circuit_breaker_pause_behavior :
    (∀ (s : SinkState) (msg : String) (now : Nat),
      isConnectionError msg = true → s.dbLoggingRetryCount = 2 →
      catchHandler s msg now =
        { s with dbLoggingRetryCount := 3, dbLoggingPaused := true,
                 dbLoggingPauseUntil := now + 30000 }) ∧
    (∀ (s : SinkState) (userId : Option Nat)
      (findUser : Nat → Except String (Option Nat))
      (persist : Option Nat → Except String Unit) (now nowD : Nat),
      s.dbLoggingEnabled = true → s.dbLoggingPaused = true → now < s.dbLoggingPauseUntil →
      logToDatabase s userId findUser persist now nowD = Except.ok (s, SyncAction.noop)) ∧
    (∀ (s : SinkState) (userId : Option Nat)
      (findUser : Nat → Except String (Option Nat))
      (persist : Option Nat → Except String Unit) (now nowD : Nat),
      s.dbLoggingEnabled = true → s.dbLoggingPaused = true → s.dbLoggingPauseUntil ≤ now →
      logToDatabase s userId findUser persist now nowD =
        Except.ok (deferredRun { s with dbLoggingPaused := false, dbLoggingRetryCount := 0 }
          userId findUser persist nowD, SyncAction.scheduled)) := by
  refine ⟨?_, ?_, ?_⟩
  · intro s msg now hc h2
    obtain ⟨en, cnt, pa, pu⟩ := s
    simp only at h2
    subst h2
    simp [catchHandler, hc, MAX_DB_LOGGING_RETRIES, DB_LOGGING_PAUSE_DURATION]
  · intro s userId findUser persist now nowD h1 h2 h3
    unfold logToDatabase logToDatabaseSync
    simp [h1, h2, h3]
  · intro s userId findUser persist now nowD h1 h2 h3
    have h3' : ¬ now < s.dbLoggingPauseUntil := not_lt.mpr h3
    unfold logToDatabase logToDatabaseSync
    simp [h1, h2, h3', MAX_DB_LOGGING_RETRIES]

/-- C3 witness: concrete instances of the three breaker behaviors: the trip
at counter 2 with a connection error, the in-window no-op, and the post-window
reset-and-retry. -/
theorem circuit_breaker_pause_behavior_witness :
    catchHandler ⟨true, 2, false, 0⟩ "Connection refused" 100 = ⟨true, 3, true, 30100⟩ ∧
    logToDatabase ⟨true, 0, true, 500⟩ none (fun _ => Except.ok none)
      (fun _ => Except.ok ()) 100 101 = Except.ok (⟨true, 0, true, 500⟩, SyncAction.noop) ∧
    logToDatabase ⟨true, 3, true, 500⟩ none (fun _ => Except.ok none)
      (fun _ => Except.ok ()) 600 601 =
      Except.ok (deferredRun ⟨true, 0, false, 500⟩ none (fun _ => Except.ok none)
        (fun _ => Except.ok ()) 601, SyncAction.scheduled) :=
  ⟨circuit_breaker_pause_behavior.1 ⟨true, 2, false, 0⟩ "Connection refused" 100 (by decide) rfl,
   circuit_breaker_pause_behavior.2.1 ⟨true, 0, true, 500⟩ none (fun _ => Except.ok none)
     (fun _ => Except.ok ()) 100 101 rfl rfl (by decide),
   circuit_breaker_pause_behavior.2.2 ⟨true, 3, true, 500⟩ none (fun _ => Except.ok none)
     (fun _ => Except.ok ()) 600 601 rfl rfl (by decide)⟩

/-- Helper: a list is a prefix of itself followed by anything. -/
theorem listPrefixEq_append (pat rest : List Char) :
    listPrefixEq pat (pat ++ rest) = true := by
  induction pat with
  | nil => rfl
  | cons a as ih => simp [listPrefixEq, ih]

/-- Helper: a prefix occurrence is an occurrence. -/
theorem listContains_of_prefixEq (pat s : List Char) (h : listPrefixEq pat s = true) :
    listContains pat s = true := by
  cases s with
  | nil => simpa [listContains] using h
  | cons c rest => simp [listContains, h]

/-- Helper: an occurrence survives prepending more characters. -/
theorem listContains_append_left (pre pat s : List Char) (h : listContains pat s = true) :
    listContains pat (pre ++ s) = true := by
  induction pre with
  | nil => simpa using h
  | cons c pre ih => simp [listContains, ih]

/-- Helper: a string contains any substring it is literally built around. -/
theorem strIncludes_concat_middle (a pat b : String) :
    strIncludes (a ++ pat ++ b) pat = true := by
  unfold strIncludes
  have hsplit : (a ++ pat ++ b).toList = a.toList ++ (pat.toList ++ b.toList) := by
    show (a.data ++ pat.data) ++ b.data = a.data ++ (pat.data ++ b.data)
    exact List.append_assoc a.data pat.data b.data
  rw [hsplit]
  exact listContains_append_left _ _ _
    (listContains_of_prefixEq _ _ (listPrefixEq_append pat.toList b.toList))

/-- Helper: a string contains whatever its right part contains. -/
theorem strIncludes_append_right (a b pat : String) (h : strIncludes b pat = true) :
    strIncludes (a ++ b) pat = true := by
  unfold strIncludes at h ⊢
  exact listContains_append_left a.toList pat.toList b.toList h

/-- C7 counterexample: before the client is ready, reading the property
`_initialized` — which is none of `then`, `catch`, `finally` — does not throw:
it returns the boolean `false`. -/
theorem proxy_initialized_member_counterexample :
    lazyProxyGet none "_initialized" = GetOutcome.boolVal false ∧
    ("_initialized" ≠ "then" ∧ "_initialized" ≠ "catch" ∧ "_initialized" ≠ "finally") :=
  ⟨rfl, by decide⟩

/-- C7 (amended): before the client is ready, reading any property other than
`_initialized`, `then`, `catch` and `finally` throws the not-initialized
error, whose message names the accessed member and instructs the caller to
use `getPrismaClientAsync`; `then`, `catch` and `finally` read as `undefined`;
and the introspection member `_initialized` returns `false` rather than
throwing. -/
theorem lazyProxyGet_before_ready :
    (∀ prop : String, prop ≠ "_initialized" → prop ≠ "then" → prop ≠ "catch" →
      prop ≠ "finally" →
      lazyProxyGet none prop = GetOutcome.thrown (notInitializedMessage prop)) ∧
    lazyProxyGet none "then" = GetOutcome.undef ∧
    lazyProxyGet none "catch" = GetOutcome.undef ∧
    lazyProxyGet none "finally" = GetOutcome.undef ∧
    lazyProxyGet none "_initialized" = GetOutcome.boolVal false ∧
    (∀ prop : String, strIncludes (notInitializedMessage prop) prop = true ∧
      strIncludes (notInitializedMessage prop) "getPrismaClientAsync" = true) := by
  refine ⟨?_, rfl, rfl, rfl, rfl, ?_⟩
  · intro prop h1 h2 h3 h4
    have e1 : (prop == "_initialized") = false := beq_eq_false_iff_ne.mpr h1
    have e2 : (prop == "then") = false := beq_eq_false_iff_ne.mpr h2
    have e3 : (prop == "catch") = false := beq_eq_false_iff_ne.mpr h3
    have e4 : (prop == "finally") = false := beq_eq_false_iff_ne.mpr h4
    simp [lazyProxyGet, e1, e2, e3, e4]
  · intro prop
    constructor
    · exact strIncludes_concat_middle "Prisma not initialized. Accessing '" prop
        "' before database is ready. Use getPrismaClientAsync() for async operations."
    · exact strIncludes_append_right _ _ _ (by decide)

/-- C7 amended-claim witness: reading `user` before readiness throws the
message naming `user` and pointing at `getPrismaClientAsync`. -/
theorem lazyProxyGet_before_ready_witness :
    lazyProxyGet none "user" = GetOutcome.thrown (notInitializedMessage "user") ∧
    strIncludes (notInitializedMessage "user") "user" = true ∧
    strIncludes (notInitializedMessage "user") "getPrismaClientAsync" = true :=
  ⟨lazyProxyGet_before_ready.1 "user" (by decide) (by decide) (by decide) (by decide),
   (lazyProxyGet_before_ready.2.2.2.2.2 "user").1,
   (lazyProxyGet_before_ready.2.2.2.2.2 "user").2⟩
